import Mathlib

/-
Verification of the vex-shopify webhook receivers.

The development shallowly embeds the two Next.js route handlers
(cart-update, src/unnamed/part_000; order-update,
src/app/api/webhook/order-update/route.ts) and the helper functions they
use.  JavaScript identifier fields typed `string | number` (possibly
absent) are modelled by `JVal`; JavaScript truthiness and the
`String(x)` conversion are modelled explicitly.  Raw request bodies,
webhook secrets and signature headers are byte lists; the HMAC-SHA256 /
base64 digest computed by the Node `crypto` library is an abstract
parameter `hmacB64` of the verifier, since it is external library code.
`crypto.timingSafeEqual` throws when the two buffers have different
lengths, which the model captures with `Except`.  Outbound GraphQL calls
are modelled by an oracle giving each call an outcome (network error,
non-2xx HTTP response, or a parsed JSON body projected onto the fields
the code inspects); the handlers return, next to the HTTP response, the
list of downstream calls they issued.
-/

namespace VexShopify

/-- A JavaScript value sitting in an identifier field: a string, a
number, or absent (`undefined`).  Numbers are modelled as integers,
which covers every identifier the handlers manipulate. -/
inductive JVal where
  | str (s : String)
  | num (n : Int)
  | absent
  deriving DecidableEq, Repr

/-- JavaScript truthiness of a `JVal`: the empty string, the number 0
and `undefined` are falsy. -/
def truthy : JVal → Bool
  | JVal.str s => s ≠ ""
  | JVal.num n => n ≠ 0
  | JVal.absent => false

/-- The JavaScript `String(x)` conversion applied to an identifier
field (`String(undefined)` is the string "undefined"). -/
def jstr : JVal → String
  | JVal.str s => s
  | JVal.num n => toString n
  | JVal.absent => "undefined"

/-- A cart or order line item: the fields the handlers read.  Both the
cart payload (`CartItem`) and the order payload (`LineItem`) expose a
`variant_id : string | number`, an optional `product_id` and a
`quantity`. -/
structure LineItem where
  variant_id : JVal
  product_id : JVal
  quantity : Int
  deriving DecidableEq, Repr

/-- The cart-update payload fields read by the cart handler:
`id?: string`, `token?: string`, `items: CartItem[]` (`items := none`
models an absent or non-array field). -/
structure ShopifyCart where
  id : Option String
  token : Option String
  items : Option (List LineItem)
  deriving DecidableEq, Repr

/-- The order payload fields read by the order handler
(`line_items := none` models an absent or non-array field). -/
structure ShopifyOrder where
  id : JVal
  admin_graphql_api_id : Option String
  order_number : JVal
  line_items : Option (List LineItem)
  deriving DecidableEq, Repr

/-- JavaScript `String.prototype.split` with a one-character separator,
restricted to the comma, written as structural recursion over the
characters so that it evaluates in the kernel.  Like the JavaScript
original, splitting the empty string yields the one-element list
containing the empty string. -/
def splitCommaChars : List Char → List (List Char)
  | [] => [[]]
  | c :: rest =>
    match splitCommaChars rest with
    | [] => [[]]
    | g :: gs => if c = ',' then [] :: g :: gs else (c :: g) :: gs

/-- The module-level constant
`TRIGGER_VARIANT_IDS = (process.env.TRIGGER_VARIANT_IDS || "").split(",")`
as a function of the environment variable string. -/
def parseTriggerIds (env : String) : List String :=
  (splitCommaChars env.data).map (fun l => String.mk l)

/-- hasTriggerProduct of the cart-update handler: false when `items` is
absent or the trigger list is the empty list, otherwise true when some
item satisfies `TRIGGER_VARIANT_IDS.includes(String(item.variant_id))`. -/
def hasTriggerProductCart (triggerIds : List String) (cart : ShopifyCart) : Bool :=
  match cart.items with
  | none => false
  | some items =>
    if triggerIds.length = 0 then false
    else items.any (fun it => triggerIds.contains (jstr it.variant_id))

/-- hasHiddenProduct of the cart-update handler: false when `items` is
absent or `HIDDEN_VARIANT_ID` is empty, otherwise true when some item
satisfies `String(item.variant_id) === HIDDEN_VARIANT_ID`. -/
def hasHiddenProduct (hiddenId : String) (cart : ShopifyCart) : Bool :=
  match cart.items with
  | none => false
  | some items =>
    if hiddenId = "" then false
    else items.any (fun it => jstr it.variant_id == hiddenId)

/-- hasTriggerProduct of the order-update handler: false when
`line_items` is absent or the trigger list is the empty list, otherwise
true when some item has a truthy `product_id` whose string form is in
the trigger list. -/
def hasTriggerProductOrder (triggerIds : List String) (o : ShopifyOrder) : Bool :=
  match o.line_items with
  | none => false
  | some items =>
    if triggerIds.length = 0 then false
    else items.any (fun it => truthy it.product_id && triggerIds.contains (jstr it.product_id))

/-- hasOGPack of the order-update handler: false when `line_items` is
absent or `OG_VARIANT_ID` is empty, otherwise true when some item has a
truthy `product_id` or a truthy `variant_id` whose string form equals
`OG_VARIANT_ID`. -/
def hasOGPack (ogId : String) (o : ShopifyOrder) : Bool :=
  match o.line_items with
  | none => false
  | some items =>
    if ogId = "" then false
    else items.any (fun it =>
      (truthy it.product_id && jstr it.product_id == ogId) ||
      (truthy it.variant_id && jstr it.variant_id == ogId))

/-- Node `crypto.timingSafeEqual` on two byte buffers: throws
(`Except.error`) when the lengths differ, otherwise returns whether the
contents are equal. -/
def timingSafeEqual (a b : List Nat) : Except Unit Bool :=
  if a.length = b.length then Except.ok (a == b) else Except.error ()

/-- verifyShopifyWebhook (identical in both handlers).  `hmacB64` is
the abstract digest function standing for the Node crypto pipeline
`createHmac("sha256", secret).update(body).digest("base64")`, seen as
bytes; `secret` and `body` are byte lists and `hmacHeader` the byte
list of the `x-shopify-hmac-sha256` header (`none` when missing).  With
the bypass flag set it returns true unconditionally; an empty secret or
a missing/empty header yields false; otherwise the digest is compared
to the header with `timingSafeEqual`, whose length-mismatch exception
propagates to the caller. -/
def verifyShopifyWebhook (hmacB64 : List Nat → List Nat → List Nat)
    (bypass : Bool) (secret : List Nat) (body : List Nat)
    (hmacHeader : Option (List Nat)) : Except Unit Bool :=
  if bypass then Except.ok true
  else if secret = [] then Except.ok false
  else
    match hmacHeader with
    | none => Except.ok false
    | some h =>
      if h = [] then Except.ok false
      else timingSafeEqual (hmacB64 secret body) h

/-- Outcome of one outbound `fetch` of a GraphQL call: the request
rejects at the network layer (or `.json()` throws), the response is
non-2xx (`!response.ok`), or a parsed JSON body comes back. -/
inductive FetchOut (α : Type) where
  | netErr
  | httpErr
  | ok (resp : α)
  deriving DecidableEq, Repr

/-- The fields of the Storefront API response the cart handler reads:
the top-level `errors` array and the chain
`data?.cartLinesAdd?.userErrors` (`none` models any absent link of the
optional chain). -/
structure SfResp where
  errors : Option (List String)
  cartLinesAddUserErrors : Option (List String)
  deriving DecidableEq, Repr

/-- addHiddenProductToCart: returns null (`none`) without calling out
when the Storefront token or the hidden variant id is empty; otherwise
it issues exactly one call and returns null on a thrown error (network
failure or non-2xx response) and the raw parsed response body on
success, without inspecting it.  The second component records whether
the outbound call was issued. -/
def addHiddenProductToCart (sfToken hiddenId : String) (cartId : String)
    (remote : FetchOut SfResp) : Option SfResp × Bool :=
  if sfToken = "" ∨ hiddenId = "" then (none, false)
  else
    match remote with
    | FetchOut.netErr => (none, true)
    | FetchOut.httpErr => (none, true)
    | FetchOut.ok r => (some r, true)

/-- Fields of the `orderEditBegin` response inspected by the code. -/
structure BeginResp where
  errors : Option (List String)
  userErrors : Option (List String)
  calculatedOrderId : Option String
  deriving DecidableEq, Repr

/-- Fields of the `orderEditAddVariant` response inspected by the code. -/
structure AddVariantResp where
  errors : Option (List String)
  userErrors : Option (List String)
  calculatedLineItemId : Option String
  deriving DecidableEq, Repr

/-- Fields of the `orderEditAddLineItemDiscount` response inspected by
the code. -/
structure DiscountResp where
  errors : Option (List String)
  userErrors : Option (List String)
  deriving DecidableEq, Repr

/-- Fields of the `orderEditCommit` response inspected by the code. -/
structure CommitResp where
  errors : Option (List String)
  userErrors : Option (List String)
  deriving DecidableEq, Repr

/-- Remote behaviour for the four calls of the order-edit transaction. -/
structure OrderRemote where
  beginR : FetchOut BeginResp
  addVariantR : FetchOut AddVariantResp
  discountR : FetchOut DiscountResp
  commitR : FetchOut CommitResp
  deriving DecidableEq, Repr

/-- Truthiness of a JSON `errors` field: present (even as an empty
array, which is truthy in JavaScript) means truthy. -/
def errTruthy (o : Option (List String)) : Bool := o.isSome

/-- The `userErrors && userErrors.length > 0` test, with `none`
modelling a broken optional chain. -/
def userErrorsFail (o : Option (List String)) : Bool :=
  match o with
  | some l => !l.isEmpty
  | none => false

/-- The per-step failure test
`result.errors || (chain.userErrors && chain.userErrors.length > 0)`. -/
def stepFails (errors userErrors : Option (List String)) : Bool :=
  errTruthy errors || userErrorsFail userErrors

/-- Truthiness of an optional string field (absent or empty is falsy). -/
def truthyOptStr (o : Option String) : Bool :=
  match o with
  | some s => s ≠ ""
  | none => false

/-- The regex test `/^\d+$/.test(s)`: nonempty and all decimal digits. -/
def isAllDigitsNonempty (s : String) : Bool :=
  !s.data.isEmpty && s.data.all (fun c => c.isDigit)

/-- The order-identifier translation at the top of addFreeItemToOrder:
a number, or a string of decimal digits, becomes
`gid://shopify/Order/<id>`; any other string is passed through
unchanged.  (An absent value would be interpolated as "undefined" by
the template literal further down.) -/
def orderGid : JVal → String
  | JVal.num n => "gid://shopify/Order/" ++ toString n
  | JVal.str s => if isAllDigitsNonempty s then "gid://shopify/Order/" ++ s else s
  | JVal.absent => "undefined"

/-- Labels for the four outbound calls of the order-edit transaction. -/
inductive Step where
  | beginEdit
  | addVariant
  | addDiscount
  | commitEdit
  deriving DecidableEq, Repr

/-- addFreeItemToOrder of the order-update handler: null (`none`)
without calling out when the Admin key or the OG variant id is empty;
otherwise the strict sequence begin → add variant → add discount →
commit, each step first checked for a thrown transport error, then for
`errors`/`userErrors`, and for begin and add-variant additionally for a
falsy returned id.  Any failure aborts the remaining steps (the thrown
error is caught at the bottom and turned into null).  On success the
raw commit response is returned.  The second component lists the calls
issued, in order.  The order identifier is converted to the global-id
format (`orderGid orderId`) for the begin query; the query payloads
themselves are not modelled, only the outcome of each call. -/
def addFreeItemToOrder (adminKey ogId : String) (orderId : JVal)
    (remote : OrderRemote) : Option CommitResp × List Step :=
  if adminKey = "" ∨ ogId = "" then (none, [])
  else
    match remote.beginR with
    | FetchOut.netErr => (none, [Step.beginEdit])
    | FetchOut.httpErr => (none, [Step.beginEdit])
    | FetchOut.ok b =>
      if stepFails b.errors b.userErrors then (none, [Step.beginEdit])
      else if !truthyOptStr b.calculatedOrderId then (none, [Step.beginEdit])
      else
        match remote.addVariantR with
        | FetchOut.netErr => (none, [Step.beginEdit, Step.addVariant])
        | FetchOut.httpErr => (none, [Step.beginEdit, Step.addVariant])
        | FetchOut.ok a =>
          if stepFails a.errors a.userErrors then (none, [Step.beginEdit, Step.addVariant])
          else if !truthyOptStr a.calculatedLineItemId then
            (none, [Step.beginEdit, Step.addVariant])
          else
            match remote.discountR with
            | FetchOut.netErr => (none, [Step.beginEdit, Step.addVariant, Step.addDiscount])
            | FetchOut.httpErr => (none, [Step.beginEdit, Step.addVariant, Step.addDiscount])
            | FetchOut.ok d =>
              if stepFails d.errors d.userErrors then
                (none, [Step.beginEdit, Step.addVariant, Step.addDiscount])
              else
                match remote.commitR with
                | FetchOut.netErr =>
                  (none, [Step.beginEdit, Step.addVariant, Step.addDiscount, Step.commitEdit])
                | FetchOut.httpErr =>
                  (none, [Step.beginEdit, Step.addVariant, Step.addDiscount, Step.commitEdit])
                | FetchOut.ok c =>
                  if stepFails c.errors c.userErrors then
                    (none, [Step.beginEdit, Step.addVariant, Step.addDiscount, Step.commitEdit])
                  else
                    (some c, [Step.beginEdit, Step.addVariant, Step.addDiscount, Step.commitEdit])

/-- An HTTP JSON response of a handler, projected onto its status code,
success flag and message. -/
structure Resp where
  status : Nat
  success : Bool
  message : String
  deriving DecidableEq, Repr

/-- An incoming cart-update webhook request: the raw body bytes, the
optional signature header bytes, and the result of `JSON.parse` on the
body (`none` models a parse exception). -/
structure CartReq where
  body : List Nat
  hmacHeader : Option (List Nat)
  parsedCart : Option ShopifyCart
  deriving Repr

/-- An incoming order webhook request, analogously. -/
structure OrderReq where
  body : List Nat
  hmacHeader : Option (List Nat)
  parsedOrder : Option ShopifyOrder
  deriving Repr

/-- The `cart.id || cart.token` extraction followed by the `!cartId`
falsiness test: the first truthy of the two optional strings, if any. -/
def cartIdOf (c : ShopifyCart) : Option String :=
  match c.id with
  | some s =>
    if s = "" then
      match c.token with
      | some t => if t = "" then none else some t
      | none => none
    else some s
  | none =>
    match c.token with
    | some t => if t = "" then none else some t
    | none => none

/-- The `order.id || order.admin_graphql_api_id` extraction of the
order handler, as a JavaScript value (possibly falsy). -/
def orderIdOf (o : ShopifyOrder) : JVal :=
  if truthy o.id then o.id
  else
    match o.admin_graphql_api_id with
    | some s => JVal.str s
    | none => JVal.absent

/-- The POST handler of the cart-update route.  Returns the HTTP
response together with whether the Storefront mutation was issued.  The
outer try/catch turns every thrown error (a signature comparison on
buffers of different lengths, or a JSON parse failure) into a 500
response. -/
def postCartUpdate (hmacB64 : List Nat → List Nat → List Nat)
    (bypass : Bool) (secret : List Nat) (sfToken hiddenId triggerEnv : String)
    (req : CartReq) (remote : FetchOut SfResp) : Resp × Bool :=
  match verifyShopifyWebhook hmacB64 bypass secret req.body req.hmacHeader with
  | Except.error _ =>
    ({ status := 500, success := false, message := "Error processing webhook" }, false)
  | Except.ok false =>
    ({ status := 401, success := false, message := "Invalid webhook signature" }, false)
  | Except.ok true =>
    match req.parsedCart with
    | none =>
      ({ status := 500, success := false, message := "Error processing webhook" }, false)
    | some cart =>
      if hasTriggerProductCart (parseTriggerIds triggerEnv) cart &&
          !hasHiddenProduct hiddenId cart then
        match cartIdOf cart with
        | none => ({ status := 400, success := false, message := "Missing cart ID" }, false)
        | some cid =>
          let r := addHiddenProductToCart sfToken hiddenId cid remote
          match r.1 with
          | some resp =>
            if userErrorsFail resp.cartLinesAddUserErrors then
              ({ status := 500, success := false, message := "Failed to add product" }, r.2)
            else
              ({ status := 200, success := true, message := "Hidden product added to cart" }, r.2)
          | none =>
            ({ status := 200, success := true, message := "Hidden product added to cart" }, r.2)
      else
        ({ status := 200, success := true, message := "Webhook received" }, false)

/-- The POST handler of the order-update route.  Returns the HTTP
response together with the list of Admin API calls issued. -/
def postOrderUpdate (hmacB64 : List Nat → List Nat → List Nat)
    (bypass : Bool) (secret : List Nat) (adminKey ogId triggerEnv : String)
    (req : OrderReq) (remote : OrderRemote) : Resp × List Step :=
  match verifyShopifyWebhook hmacB64 bypass secret req.body req.hmacHeader with
  | Except.error _ =>
    ({ status := 500, success := false, message := "Error processing webhook" }, [])
  | Except.ok false =>
    ({ status := 401, success := false, message := "Invalid webhook signature" }, [])
  | Except.ok true =>
    match req.parsedOrder with
    | none =>
      ({ status := 500, success := false, message := "Error processing webhook" }, [])
    | some o =>
      if hasTriggerProductOrder (parseTriggerIds triggerEnv) o && !hasOGPack ogId o then
        if truthy (orderIdOf o) then
          let r := addFreeItemToOrder adminKey ogId (orderIdOf o) remote
          match r.1 with
          | none =>
            ({ status := 500, success := false, message := "Failed to add free item to order" },
              r.2)
          | some c =>
            if errTruthy c.errors then
              ({ status := 500, success := false, message := "Failed to add free item to order" },
                r.2)
            else
              ({ status := 200, success := true, message := "Free item added to order" }, r.2)
        else
          ({ status := 400, success := false, message := "Missing order ID" }, [])
      else
        ({ status := 200, success := true, message := "Webhook received" }, [])

/-- Modelled from the claim wording of the presence predicate: some
line item has a variant-level identifier, or a product-level
identifier, whose string form equals the target identifier (an absent
field carries no identifier). -/
def specOGMatch (ogId : String) (o : ShopifyOrder) : Bool :=
  match o.line_items with
  | none => false
  | some items =>
    items.any (fun it =>
      (match it.variant_id with
       | JVal.absent => false
       | v => jstr v == ogId) ||
      (match it.product_id with
       | JVal.absent => false
       | v => jstr v == ogId))

/-- A concrete stand-in for the abstract keyed digest function, used
only to instantiate theorems at concrete inputs. -/
def macLen (s b : List Nat) : List Nat := [s.length + b.length + 1]

/-- A cart containing one trigger line item with variant id "T1". -/
def cartT1 : ShopifyCart :=
  { id := some "c1", token := none,
    items := some [{ variant_id := JVal.str "T1", product_id := JVal.absent, quantity := 1 }] }

/-- A cart whose only line item has the empty string as variant id. -/
def cartBlankVar : ShopifyCart :=
  { id := some "c1", token := none,
    items := some [{ variant_id := JVal.str "", product_id := JVal.absent, quantity := 1 }] }

/-- A cart payload with no items field. -/
def cartNoItems : ShopifyCart := { id := none, token := none, items := none }

/-- An order whose only line item has the number 0 as variant id. -/
def orderVarZero : ShopifyOrder :=
  { id := JVal.num 1, admin_graphql_api_id := none, order_number := JVal.num 1,
    line_items := some [{ variant_id := JVal.num 0, product_id := JVal.absent, quantity := 1 }] }

/-- An order containing one trigger line item with product id "T1". -/
def orderT1 : ShopifyOrder :=
  { id := JVal.num 42, admin_graphql_api_id := none, order_number := JVal.num 7,
    line_items := some [{ variant_id := JVal.num 5, product_id := JVal.str "T1", quantity := 1 }] }

/-- An order request carrying `orderT1`, with an empty body and no
signature header. -/
def reqOrderT1 : OrderReq := { body := [], hmacHeader := none, parsedOrder := some orderT1 }

/-- A cart request carrying `cartT1` whose signature header has a
different byte length than the digest produced by `macLen`. -/
def reqCartBadLen : CartReq := { body := [], hmacHeader := some [66, 66], parsedCart := some cartT1 }

/-- A cart request carrying `cartT1` whose signature header has the
same length as the `macLen` digest but different content. -/
def reqCartBadSig : CartReq := { body := [], hmacHeader := some [9], parsedCart := some cartT1 }

/-- A cart request carrying `cartT1` with no signature header. -/
def reqCartT1 : CartReq := { body := [], hmacHeader := none, parsedCart := some cartT1 }

/-- A Storefront response whose cartLinesAdd payload carries one user
error. -/
def cex6Resp : SfResp := { errors := none, cartLinesAddUserErrors := some ["error"] }

/-- An orderEditBegin response carrying a user error and no calculated
order id. -/
def beginFail : BeginResp :=
  { errors := none, userErrors := some ["err"], calculatedOrderId := none }

/-- A remote behaviour whose begin call returns `beginFail`. -/
def remoteBeginFail : OrderRemote :=
  { beginR := FetchOut.ok beginFail, addVariantR := FetchOut.netErr,
    discountR := FetchOut.netErr, commitR := FetchOut.netErr }

theorem verify_eval (f : List Nat → List Nat → List Nat)
    (secret body h : List Nat) (hsec : secret ≠ []) (hh : h ≠ [])
    (hlen : (f secret body).length = h.length) :
    verifyShopifyWebhook f false secret body (some h) = Except.ok (f secret body == h) := by
  unfold verifyShopifyWebhook timingSafeEqual
  simp [hsec, hh, hlen]

theorem verify_accepts_iff (f : List Nat → List Nat → List Nat)
    (secret body h : List Nat) (hsec : secret ≠ []) (hdig : f secret body ≠ []) :
    verifyShopifyWebhook f false secret body (some h) = Except.ok true ↔
      h = f secret body := by
  by_cases hh : h = []
  · subst hh
    unfold verifyShopifyWebhook
    simp [hsec]
    exact fun hx => hdig hx
  · by_cases hl : (f secret body).length = h.length
    · rw [verify_eval f secret body h hsec hh hl]
      constructor
      · intro hx
        exact (eq_of_beq (Except.ok.inj hx)).symm
      · intro hx
        subst hx
        simp
    · unfold verifyShopifyWebhook timingSafeEqual
      simp [hsec, hh, hl]
      exact fun hx => hl (by rw [hx])

/-- C1: with the bypass disabled and a non-empty secret, and the
header present, the verifier accepts exactly when the header bytes
equal the digest bytes `hmacB64 secret body` (the abstract stand-in
for base64(HMAC-SHA256(secret, body))); mutating a single byte of an
accepted signature makes it return false; mutating a single byte of
the body makes it reject, provided the digest of the mutated body
differs from the original digest (the collision-freedom of HMAC-SHA256
on single-byte edits, which is a cryptographic assumption and cannot
be derived for an abstract digest function); with the bypass enabled
it accepts every input. -/
theorem c1_verifier_correct (hmacB64 : List Nat → List Nat → List Nat)
    (secret body h : List Nat)
    (hsec : secret ≠ []) (hdig : hmacB64 secret body ≠ []) :
    (verifyShopifyWebhook hmacB64 false secret body (some h) = Except.ok true ↔
      h = hmacB64 secret body)
    ∧ (∀ i : Nat, ∀ hi : i < h.length, ∀ b : Nat, b ≠ h.get ⟨i, hi⟩ →
        h = hmacB64 secret body →
        verifyShopifyWebhook hmacB64 false secret body (some (h.set i b)) = Except.ok false)
    ∧ (∀ i : Nat, ∀ hi : i < body.length, ∀ b : Nat, b ≠ body.get ⟨i, hi⟩ →
        hmacB64 secret (body.set i b) ≠ hmacB64 secret body →
        h = hmacB64 secret body →
        verifyShopifyWebhook hmacB64 false secret (body.set i b) (some h) ≠ Except.ok true)
    ∧ (∀ (s bd : List Nat) (hdr : Option (List Nat)),
        verifyShopifyWebhook hmacB64 true s bd hdr = Except.ok true) := by
  refine ⟨verify_accepts_iff hmacB64 secret body h hsec hdig, ?_, ?_, ?_⟩
  · intro i hi b hb heq
    have hh : h ≠ [] := by rw [heq]; exact hdig
    have hlenset : (h.set i b).length = h.length := List.length_set h i b
    have hset_ne : (h.set i b) ≠ [] := by
      intro hcontra
      exact hh (List.eq_nil_of_length_eq_zero (by rw [← hlenset, hcontra]; rfl))
    have hb2 : b ≠ h[i] := by
      rw [← List.get_eq_getElem h ⟨i, hi⟩]
      exact hb
    have hne : h ≠ h.set i b := by
      intro hcontra
      have h1 : h[i]? = (h.set i b)[i]? := by rw [← hcontra]
      rw [List.getElem?_set_eq_of_lt b hi, List.getElem?_eq_getElem hi] at h1
      exact hb2 (Option.some.inj h1).symm
    have hlen2 : (hmacB64 secret body).length = (h.set i b).length := by
      rw [hlenset, ← heq]
    rw [verify_eval hmacB64 secret body (h.set i b) hsec hset_ne hlen2]
    rw [← heq]
    rw [beq_eq_false_iff_ne.mpr hne]
  · intro i hi b hb hneq heq hacc
    have hh : h ≠ [] := by rw [heq]; exact hdig
    by_cases hl : (hmacB64 secret (body.set i b)).length = h.length
    · rw [verify_eval hmacB64 secret (body.set i b) h hsec hh hl] at hacc
      have hx : hmacB64 secret (body.set i b) = h := eq_of_beq (Except.ok.inj hacc)
      exact hneq (hx.trans heq)
    · unfold verifyShopifyWebhook timingSafeEqual at hacc
      simp [hsec, hh, hl] at hacc
  · intro s bd hdr
    simp [verifyShopifyWebhook]

/-- C1 witness: a concrete digest function, secret, body and matching
header on which the verifier accepts. -/
theorem c1_verifier_correct_witness :
    verifyShopifyWebhook macLen false [1] [2, 3] (some [4]) = Except.ok true :=
  (c1_verifier_correct macLen [1] [2, 3] [4] (by decide) (by decide)).1.mpr (by decide)

/-- C3 counterexample: with target identifier "0" and an order whose
only line item has the number 0 as variant-level identifier, the
string form of that identifier equals the target (the claim-side
predicate is true), yet hasOGPack returns false, because the code
first tests the field for JavaScript truthiness and the number 0 is
falsy.  So hasOGPack does not hold exactly when some identifier
string-equals the target. -/
theorem c3_counterexample :
    specOGMatch "0" orderVarZero = true ∧ hasOGPack "0" orderVarZero = false := by
  decide

/-- C3 amended: hasOGPack returns true if and only if the configured
target identifier is non-empty, the line-item collection is present,
and some line item has a JavaScript-truthy product-level or
variant-level identifier whose string form equals the target; a truthy
match on either field alone suffices. -/
theorem c3_amended (ogId : String) (o : ShopifyOrder) :
    hasOGPack ogId o = true ↔
      (ogId ≠ "" ∧ ∃ items, o.line_items = some items ∧ ∃ it ∈ items,
        ((truthy it.product_id = true ∧ jstr it.product_id = ogId) ∨
         (truthy it.variant_id = true ∧ jstr it.variant_id = ogId))) := by
  cases hitems : o.line_items with
  | none => simp [hasOGPack, hitems]
  | some items =>
    by_cases hg : ogId = ""
    · simp [hasOGPack, hitems, hg]
    · simp [hasOGPack, hitems, hg, List.any_eq_true]

theorem splitCommaChars_ne_nil (l : List Char) : splitCommaChars l ≠ [] := by
  cases l with
  | nil => simp [splitCommaChars]
  | cons c rest =>
    unfold splitCommaChars
    split
    · simp
    · split <;> simp

/-- C5 counterexample: when the trigger environment variable is the
empty string, `(env || "").split(",")` is the one-element list
containing the empty string, not the empty list, so the length guard
does not fire; a cart whose line item has the empty string as variant
id then makes the cart-flow trigger predicate return true, where the
claim requires false. -/
theorem c5_counterexample :
    parseTriggerIds "" = [""] ∧
    hasTriggerProductCart (parseTriggerIds "") cartBlankVar = true := by
  decide

/-- C5 amended: both trigger predicates return false when the
line-item collection is absent or empty, and when the trigger list is
the empty list; however an unset or empty trigger environment variable
does not produce the empty list but the singleton list containing the
empty string (splitting never yields the empty list), under which the
cart-flow predicate returns true exactly when some line item has a
variant identifier whose string form is empty. -/
theorem c5_amended :
    (∀ ids c, c.items = none → hasTriggerProductCart ids c = false)
    ∧ (∀ ids c, c.items = some [] → hasTriggerProductCart ids c = false)
    ∧ (∀ c, hasTriggerProductCart [] c = false)
    ∧ (∀ ids o, o.line_items = none → hasTriggerProductOrder ids o = false)
    ∧ (∀ ids o, o.line_items = some [] → hasTriggerProductOrder ids o = false)
    ∧ (∀ o, hasTriggerProductOrder [] o = false)
    ∧ (∀ env, parseTriggerIds env ≠ [])
    ∧ (∀ c items, c.items = some items →
        (hasTriggerProductCart (parseTriggerIds "") c = true ↔
          ∃ it ∈ items, jstr it.variant_id = "")) := by
  refine ⟨?_, ?_, ?_, ?_, ?_, ?_, ?_, ?_⟩
  · intro ids c hitems; simp [hasTriggerProductCart, hitems]
  · intro ids c hitems; simp [hasTriggerProductCart, hitems]
  · intro c; unfold hasTriggerProductCart; cases c.items <;> simp
  · intro ids o hitems; simp [hasTriggerProductOrder, hitems]
  · intro ids o hitems; simp [hasTriggerProductOrder, hitems]
  · intro o; unfold hasTriggerProductOrder; cases o.line_items <;> simp
  · intro env hcontra
    have hlen := congrArg List.length hcontra
    simp [parseTriggerIds] at hlen
    exact splitCommaChars_ne_nil env.data hlen
  · intro c items hitems
    have h0 : parseTriggerIds "" = [""] := rfl
    rw [h0]
    simp [hasTriggerProductCart, hitems, List.any_eq_true, List.contains_cons]

/-- C5 witness: the amended statement applied at concrete inputs with
its hypotheses discharged. -/
theorem c5_amended_witness :
    hasTriggerProductCart ["T1"] cartNoItems = false ∧
    parseTriggerIds "a,b" ≠ [] ∧
    (hasTriggerProductCart (parseTriggerIds "") cartBlankVar = true ↔
      ∃ it ∈ [({ variant_id := JVal.str "", product_id := JVal.absent,
                 quantity := 1 } : LineItem)], jstr it.variant_id = "") :=
  ⟨c5_amended.1 ["T1"] cartNoItems rfl,
   c5_amended.2.2.2.2.2.2.1 "a,b",
   c5_amended.2.2.2.2.2.2.2 cartBlankVar _ rfl⟩

/-- C6 counterexample: a successful HTTP exchange whose response body
carries user-level errors is returned as-is (non-null) by
addHiddenProductToCart; the claim says the function returns null
whenever user-level errors are present, but the userErrors check lives
in the POST handler, not in this function. -/
theorem c6_counterexample :
    userErrorsFail cex6Resp.cartLinesAddUserErrors = true ∧
    (addHiddenProductToCart "tok" "H1" "c1" (FetchOut.ok cex6Resp)).1 = some cex6Resp := by
  decide

/-- C6 amended: addHiddenProductToCart returns null when a required
configuration value is empty (issuing no call) and on transport
failure (network error or non-2xx response); on any successful HTTP
exchange it returns the raw API response unchanged, even when that
response carries user-level errors, which are left for the POST
handler to inspect. -/
theorem c6_amended :
    (∀ sfToken hiddenId cartId remote, sfToken = "" ∨ hiddenId = "" →
      addHiddenProductToCart sfToken hiddenId cartId remote = (none, false))
    ∧ (∀ sfToken hiddenId cartId, sfToken ≠ "" → hiddenId ≠ "" →
      addHiddenProductToCart sfToken hiddenId cartId FetchOut.netErr = (none, true) ∧
      addHiddenProductToCart sfToken hiddenId cartId FetchOut.httpErr = (none, true))
    ∧ (∀ sfToken hiddenId cartId resp, sfToken ≠ "" → hiddenId ≠ "" →
      addHiddenProductToCart sfToken hiddenId cartId (FetchOut.ok resp) = (some resp, true)) := by
  refine ⟨?_, ?_, ?_⟩
  · intro a b c r hcfg
    unfold addHiddenProductToCart
    rw [if_pos hcfg]
  · intro a b c ha hb
    constructor <;> (unfold addHiddenProductToCart; rw [if_neg (by simp [ha, hb])])
  · intro a b c r ha hb
    unfold addHiddenProductToCart
    rw [if_neg (by simp [ha, hb])]

/-- C6 witness: the amended statement applied at concrete inputs with
its hypotheses discharged. -/
theorem c6_amended_witness :
    addHiddenProductToCart "" "H1" "c1" FetchOut.netErr = (none, false) ∧
    addHiddenProductToCart "tok" "H1" "c1" (FetchOut.ok cex6Resp) = (some cex6Resp, true) :=
  ⟨c6_amended.1 "" "H1" "c1" FetchOut.netErr (Or.inl rfl),
   c6_amended.2.2 "tok" "H1" "c1" cex6Resp (by decide) (by decide)⟩

/-- C8: the order-identifier translation maps a number, or a non-empty
string of decimal digits, to the format gid://shopify/Order/<id>, and
passes a string already of the form gid://... through unchanged. -/
theorem c8_order_gid :
    (∀ n : Int, orderGid (JVal.num n) = "gid://shopify/Order/" ++ toString n)
    ∧ (∀ s : String, s.data ≠ [] → s.data.all (fun c => c.isDigit) = true →
        orderGid (JVal.str s) = "gid://shopify/Order/" ++ s)
    ∧ (∀ s t : String, s = "gid://" ++ t → orderGid (JVal.str s) = s) := by
  refine ⟨?_, ?_, ?_⟩
  · intro n; rfl
  · intro s h1 h2
    have hne : s.data.isEmpty = false := by
      cases hd : s.data with
      | nil => exact absurd hd h1
      | cons a l => rfl
    have htest : isAllDigitsNonempty s = true := by
      unfold isAllDigitsNonempty
      rw [hne, h2]
      rfl
    simp only [orderGid]
    rw [htest]
    simp
  · intro s t hst
    have hd : s.data = 'g' :: 'i' :: 'd' :: ':' :: '/' :: '/' :: t.data := by
      rw [hst, String.data_append]; rfl
    have hfalse : isAllDigitsNonempty s = false := by
      unfold isAllDigitsNonempty
      rw [hd]
      have hg : ('g').isDigit = false := by decide
      simp [List.all_cons, hg]
    simp only [orderGid]
    rw [hfalse]
    simp

/-- C8 witness: the translation applied to a concrete number, digit
string and gid-format string. -/
theorem c8_order_gid_witness :
    orderGid (JVal.num 7) = "gid://shopify/Order/7" ∧
    orderGid (JVal.str "123") = "gid://shopify/Order/123" ∧
    orderGid (JVal.str "gid://shopify/Order/9") = "gid://shopify/Order/9" :=
  ⟨c8_order_gid.1 7,
   c8_order_gid.2.1 "123" (by decide) (by decide),
   c8_order_gid.2.2 "gid://shopify/Order/9" "shopify/Order/9" (by decide)⟩

/-- C9: when the Storefront access token or the hidden variant id is
the empty string, addHiddenProductToCart returns null without issuing
its call, and when the Admin API key or the OG variant id is the empty
string, addFreeItemToOrder returns null without issuing any call. -/
theorem c9_missing_config :
    (∀ sfToken hiddenId cartId remote, sfToken = "" ∨ hiddenId = "" →
      addHiddenProductToCart sfToken hiddenId cartId remote = (none, false))
    ∧ (∀ adminKey ogId orderId remote, adminKey = "" ∨ ogId = "" →
      addFreeItemToOrder adminKey ogId orderId remote = (none, [])) := by
  constructor
  · intro a b c r hcfg
    unfold addHiddenProductToCart
    rw [if_pos hcfg]
  · intro a b c r hcfg
    unfold addFreeItemToOrder
    rw [if_pos hcfg]

/-- C9 witness: both mutation functions applied with an empty
configuration value. -/
theorem c9_missing_config_witness :
    addHiddenProductToCart "tok" "" "c1" FetchOut.netErr = (none, false) ∧
    addFreeItemToOrder "" "OG" (JVal.num 1) remoteBeginFail = (none, []) :=
  ⟨c9_missing_config.1 "tok" "" "c1" FetchOut.netErr (Or.inr rfl),
   c9_missing_config.2 "" "OG" (JVal.num 1) remoteBeginFail (Or.inl rfl)⟩

/-- C7: when the begin call of the order-edit transaction comes back
with user errors, or without the expected calculated-order token, no
further Admin API call is issued, addFreeItemToOrder fails with null,
and the webhook response has status 500. -/
theorem c7_begin_failure (f : List Nat → List Nat → List Nat) (bypass : Bool)
    (secret : List Nat) (adminKey ogId triggerEnv : String)
    (req : OrderReq) (o : ShopifyOrder) (remote : OrderRemote) (b : BeginResp)
    (hkey : adminKey ≠ "") (hog : ogId ≠ "")
    (hver : verifyShopifyWebhook f bypass secret req.body req.hmacHeader = Except.ok true)
    (hparse : req.parsedOrder = some o)
    (htrig : hasTriggerProductOrder (parseTriggerIds triggerEnv) o = true)
    (hnoog : hasOGPack ogId o = false)
    (hid : truthy (orderIdOf o) = true)
    (hbegin : remote.beginR = FetchOut.ok b)
    (hfail : userErrorsFail b.userErrors = true ∨ truthyOptStr b.calculatedOrderId = false) :
    addFreeItemToOrder adminKey ogId (orderIdOf o) remote = (none, [Step.beginEdit])
    ∧ (postOrderUpdate f bypass secret adminKey ogId triggerEnv req remote).1.status = 500
    ∧ (postOrderUpdate f bypass secret adminKey ogId triggerEnv req remote).2
        = [Step.beginEdit] := by
  have haf : addFreeItemToOrder adminKey ogId (orderIdOf o) remote
      = (none, [Step.beginEdit]) := by
    unfold addFreeItemToOrder
    rw [if_neg (by simp [hkey, hog])]
    simp only [hbegin]
    rcases hfail with hue | hcalc
    · rw [if_pos (by simp [stepFails, hue])]
    · by_cases hsf : stepFails b.errors b.userErrors = true
      · rw [if_pos hsf]
      · rw [if_neg hsf, hcalc]
        simp
  exact ⟨haf, by simp [postOrderUpdate, hver, hparse, htrig, hnoog, hid, haf],
    by simp [postOrderUpdate, hver, hparse, htrig, hnoog, hid, haf]⟩

/-- C7 witness: a concrete verified order webhook whose begin call
returns a user error. -/
theorem c7_begin_failure_witness :
    addFreeItemToOrder "k" "OG" (orderIdOf orderT1) remoteBeginFail
      = (none, [Step.beginEdit]) ∧
    (postOrderUpdate macLen true [] "k" "OG" "T1" reqOrderT1 remoteBeginFail).1.status = 500 ∧
    (postOrderUpdate macLen true [] "k" "OG" "T1" reqOrderT1 remoteBeginFail).2
      = [Step.beginEdit] :=
  c7_begin_failure macLen true [] "k" "OG" "T1" reqOrderT1 orderT1 remoteBeginFail beginFail
    (by decide) (by decide) rfl (by decide) (by decide) (by decide) (by decide)
    (by decide) (Or.inl (by decide))

/-- C2 counterexample: a verified cart webhook whose trigger condition
is met and whose single Storefront call fails at the transport layer;
the mutation returns null, yet the cart handler responds 200 with a
success body, where the claim requires 500.  The null-result check is
missing from the cart handler (it only checks userErrors on a non-null
result). -/
theorem c2_counterexample :
    (addHiddenProductToCart "tok" "H1" "c1" FetchOut.netErr).1 = none ∧
    (postCartUpdate macLen true [] "tok" "H1" "T1" reqCartT1 FetchOut.netErr).1.status = 200 ∧
    (postCartUpdate macLen true [] "tok" "H1" "T1" reqCartT1 FetchOut.netErr).2 = true := by
  decide

/-- C2 amended: in the order-update flow, whenever addFreeItemToOrder
fails with null — which it does on a transport failure at any step, on
missing configuration, and on user errors — the handler responds 500;
in the cart-update flow the handler responds 500 only when the call
succeeds and the response body carries cartLinesAdd user errors, while
a null result (transport failure or missing configuration) is answered
with a 200 success response. -/
theorem c2_amended :
    (∀ f bypass secret adminKey ogId triggerEnv req remote o,
      verifyShopifyWebhook f bypass secret req.body req.hmacHeader = Except.ok true →
      req.parsedOrder = some o →
      hasTriggerProductOrder (parseTriggerIds triggerEnv) o = true →
      hasOGPack ogId o = false →
      truthy (orderIdOf o) = true →
      (addFreeItemToOrder adminKey ogId (orderIdOf o) remote).1 = none →
      (postOrderUpdate f bypass secret adminKey ogId triggerEnv req remote).1.status = 500)
    ∧ (∀ adminKey ogId orderId remote, remote.beginR = FetchOut.netErr →
        (addFreeItemToOrder adminKey ogId orderId remote).1 = none)
    ∧ (∀ adminKey ogId orderId remote, remote.commitR = FetchOut.netErr →
        (addFreeItemToOrder adminKey ogId orderId remote).1 = none)
    ∧ (∀ ogId orderId remote, (addFreeItemToOrder "" ogId orderId remote).1 = none)
    ∧ (∀ adminKey ogId orderId remote b, remote.beginR = FetchOut.ok b →
        userErrorsFail b.userErrors = true →
        (addFreeItemToOrder adminKey ogId orderId remote).1 = none)
    ∧ (∀ f bypass secret sfToken hiddenId triggerEnv req remote c cid resp,
      verifyShopifyWebhook f bypass secret req.body req.hmacHeader = Except.ok true →
      req.parsedCart = some c →
      hasTriggerProductCart (parseTriggerIds triggerEnv) c = true →
      hasHiddenProduct hiddenId c = false →
      cartIdOf c = some cid →
      sfToken ≠ "" → hiddenId ≠ "" →
      remote = FetchOut.ok resp →
      userErrorsFail resp.cartLinesAddUserErrors = true →
      (postCartUpdate f bypass secret sfToken hiddenId triggerEnv req remote).1.status = 500)
    ∧ (∀ f bypass secret sfToken hiddenId triggerEnv req remote c cid,
      verifyShopifyWebhook f bypass secret req.body req.hmacHeader = Except.ok true →
      req.parsedCart = some c →
      hasTriggerProductCart (parseTriggerIds triggerEnv) c = true →
      hasHiddenProduct hiddenId c = false →
      cartIdOf c = some cid →
      (addHiddenProductToCart sfToken hiddenId cid remote).1 = none →
      (postCartUpdate f bypass secret sfToken hiddenId triggerEnv req remote).1.status
        = 200) := by
  refine ⟨?_, ?_, ?_, ?_, ?_, ?_, ?_⟩
  · intro f bypass secret adminKey ogId triggerEnv req remote o hv hp ht hg hi hres
    simp [postOrderUpdate, hv, hp, ht, hg, hi, hres]
  · intro adminKey ogId orderId remote hb
    unfold addFreeItemToOrder
    split
    · rfl
    · rw [hb]
  · intro adminKey ogId orderId remote hc
    unfold addFreeItemToOrder
    (repeat' split) <;> simp_all
  · intro ogId orderId remote
    unfold addFreeItemToOrder
    rw [if_pos (Or.inl rfl)]
  · intro adminKey ogId orderId remote b hb hue
    unfold addFreeItemToOrder
    (repeat' split) <;> simp_all [stepFails]
  · intro f bypass secret sfToken hiddenId triggerEnv req remote c cid resp
      hv hp ht hg hcid hts hhid hrem hue
    subst hrem
    simp [postCartUpdate, hv, hp, ht, hg, hcid, addHiddenProductToCart, hts, hhid, hue]
  · intro f bypass secret sfToken hiddenId triggerEnv req remote c cid hv hp ht hg hcid hres
    simp [postCartUpdate, hv, hp, ht, hg, hcid, hres]

/-- C2 witness: the amended order-flow clause applied to a concrete
verified webhook whose begin call fails. -/
theorem c2_amended_witness :
    (postOrderUpdate macLen true [] "k" "OG" "T1" reqOrderT1 remoteBeginFail).1.status = 500 :=
  c2_amended.1 macLen true [] "k" "OG" "T1" reqOrderT1 remoteBeginFail orderT1
    rfl (by decide) (by decide) (by decide) (by decide) (by decide)

/-- C4 counterexample: a request whose signature header has a byte
length different from the digest makes `timingSafeEqual` throw, so the
handler answers 500 from its catch block, not the claimed 401 (no
downstream call is issued either way). -/
theorem c4_counterexample :
    (macLen [1] reqCartBadLen.body).length ≠ (reqCartBadLen.hmacHeader.getD []).length ∧
    (postCartUpdate macLen false [1] "tok" "H1" "T1" reqCartBadLen FetchOut.netErr).1.status
      = 500 ∧
    (postCartUpdate macLen false [1] "tok" "H1" "T1" reqCartBadLen FetchOut.netErr).2
      = false := by
  decide

/-- C4 amended: whenever verification returns false (missing or empty
header, empty secret, or a same-length signature mismatch) both
handlers answer 401 and issue no downstream call; when the signature
header is non-empty but its byte length differs from the digest, the
comparison throws, and both handlers answer 500, still issuing no
downstream call. -/
theorem c4_amended :
    (∀ f bypass secret sfToken hiddenId triggerEnv req remote,
      verifyShopifyWebhook f bypass secret req.body req.hmacHeader = Except.ok false →
      (postCartUpdate f bypass secret sfToken hiddenId triggerEnv req remote).1.status = 401 ∧
      (postCartUpdate f bypass secret sfToken hiddenId triggerEnv req remote).2 = false)
    ∧ (∀ f bypass secret sfToken hiddenId triggerEnv req remote,
      verifyShopifyWebhook f bypass secret req.body req.hmacHeader = Except.error () →
      (postCartUpdate f bypass secret sfToken hiddenId triggerEnv req remote).1.status = 500 ∧
      (postCartUpdate f bypass secret sfToken hiddenId triggerEnv req remote).2 = false)
    ∧ (∀ f bypass secret adminKey ogId triggerEnv req remote,
      verifyShopifyWebhook f bypass secret req.body req.hmacHeader = Except.ok false →
      (postOrderUpdate f bypass secret adminKey ogId triggerEnv req remote).1.status = 401 ∧
      (postOrderUpdate f bypass secret adminKey ogId triggerEnv req remote).2 = [])
    ∧ (∀ f bypass secret adminKey ogId triggerEnv req remote,
      verifyShopifyWebhook f bypass secret req.body req.hmacHeader = Except.error () →
      (postOrderUpdate f bypass secret adminKey ogId triggerEnv req remote).1.status = 500 ∧
      (postOrderUpdate f bypass secret adminKey ogId triggerEnv req remote).2 = [])
    ∧ (∀ f secret body h, secret ≠ [] → h ≠ [] →
        (f secret body).length ≠ h.length →
        verifyShopifyWebhook f false secret body (some h) = Except.error ()) := by
  refine ⟨?_, ?_, ?_, ?_, ?_⟩
  · intro f bypass secret sfToken hiddenId triggerEnv req remote hv
    exact ⟨by simp [postCartUpdate, hv], by simp [postCartUpdate, hv]⟩
  · intro f bypass secret sfToken hiddenId triggerEnv req remote hv
    exact ⟨by simp [postCartUpdate, hv], by simp [postCartUpdate, hv]⟩
  · intro f bypass secret adminKey ogId triggerEnv req remote hv
    exact ⟨by simp [postOrderUpdate, hv], by simp [postOrderUpdate, hv]⟩
  · intro f bypass secret adminKey ogId triggerEnv req remote hv
    exact ⟨by simp [postOrderUpdate, hv], by simp [postOrderUpdate, hv]⟩
  · intro f secret body h hs hh hl
    unfold verifyShopifyWebhook timingSafeEqual
    simp [hs, hh, hl]

/-- C4 witness: a concrete same-length signature mismatch is answered
with 401 and no downstream call. -/
theorem c4_amended_witness :
    (postCartUpdate macLen false [1] "tok" "H1" "T1" reqCartBadSig FetchOut.netErr).1.status
      = 401 ∧
    (postCartUpdate macLen false [1] "tok" "H1" "T1" reqCartBadSig FetchOut.netErr).2
      = false :=
  c4_amended.1 macLen false [1] "tok" "H1" "T1" reqCartBadSig FetchOut.netErr rfl

/-- C10: every run of either POST handler yields a response whose
status is one of 200, 400, 401 and 500; both handler models are total
functions, reflecting that the outer try/catch converts every thrown
error (signature comparison on buffers of different lengths, JSON
parse failure) into a 500 JSON response instead of propagating it. -/
theorem c10_status_range :
    (∀ f bypass secret sfToken hiddenId triggerEnv req remote,
      (postCartUpdate f bypass secret sfToken hiddenId triggerEnv req remote).1.status = 200 ∨
      (postCartUpdate f bypass secret sfToken hiddenId triggerEnv req remote).1.status = 400 ∨
      (postCartUpdate f bypass secret sfToken hiddenId triggerEnv req remote).1.status = 401 ∨
      (postCartUpdate f bypass secret sfToken hiddenId triggerEnv req remote).1.status = 500)
    ∧ (∀ f bypass secret adminKey ogId triggerEnv req remote,
      (postOrderUpdate f bypass secret adminKey ogId triggerEnv req remote).1.status = 200 ∨
      (postOrderUpdate f bypass secret adminKey ogId triggerEnv req remote).1.status = 400 ∨
      (postOrderUpdate f bypass secret adminKey ogId triggerEnv req remote).1.status = 401 ∨
      (postOrderUpdate f bypass secret adminKey ogId triggerEnv req remote).1.status = 500) := by
  constructor
  · intro f bypass secret sfToken hiddenId triggerEnv req remote
    unfold postCartUpdate
    (repeat' split) <;> (try simp) <;>
      (rename_i cid heq2
       rcases h2 : (addHiddenProductToCart sfToken hiddenId cid remote).1 with _ | resp <;>
         simp only [h2] <;> (try split) <;> simp)
  · intro f bypass secret adminKey ogId triggerEnv req remote
    unfold postOrderUpdate
    (repeat' split) <;> (try simp) <;>
      (rename_i o heqp hcond htr
       rcases h2 : (addFreeItemToOrder adminKey ogId (orderIdOf o) remote).1 with _ | c <;>
         simp only [h2] <;> (try split_ifs) <;> simp)

end VexShopify
